import Mathlib

/-!
Shallow embedding of the `Terminal` React component (src/components/Terminal.tsx)
and its context accessor (TerminalContext), for verifying the keyboard-driven
cursor/selection state machine, the line counting, and the scroll logic.

Numbers that JavaScript handles as numbers (cursor coordinates, line counts,
pixel offsets) are modelled as Int; all arithmetic here stays in small integer
ranges where JS number arithmetic is exact.
-/

/-- A project record, as in the `Project` interface of Terminal.tsx. -/
structure Project where
  title : String
  description : String
  repoUrl : String
  technologies : String
deriving DecidableEq, Repr

/-- A work-experience record, as in the `WorkExperience` interface of
Terminal.tsx (`technologies` is optional there). -/
structure WorkExperience where
  title : String
  company : String
  duration : String
  description : String
  technologies : Option String
  link : String
deriving DecidableEq, Repr

/-- The inputs of one key event that do not change during it: the optional
content props of the component (either of which may be absent, modelled by
Option), and the pixel height `terminalRef.current.clientHeight` of the
scrollable content container read by `scrollToCursor`. -/
structure TerminalConfig where
  projects : Option (List Project)
  workExperience : Option (List WorkExperience)
  viewportHeight : Int
deriving DecidableEq, Repr

/-- The mutable state a key event can read or write: the shared
`isTerminalOpen` flag of the context, whether the external `onClose` callback
has been invoked, the `isMaximized` and `isMinimized` flags, the cursor
position `(x, y)`, `selectedLine`, `lastKeyPressed`, and the pixel scroll
offset `terminalRef.current.scrollTop` of the content container. -/
structure TerminalState where
  isTerminalOpen : Bool
  onCloseCalled : Bool
  isMaximized : Bool
  isMinimized : Bool
  x : Int
  y : Int
  selectedLine : Option Int
  lastKeyPressed : Option String
  scrollTop : Int
deriving DecidableEq, Repr

/-- Models `event.key.toLowerCase()`: JavaScript lowercases the string one
character at a time, and every key name this component inspects is ASCII, so
per-character ASCII lowercasing is exact here. -/
def keyToLower (s : String) : String :=
  String.mk (s.data.map Char.toLower)

/-- `calculateTotalLines` of Terminal.tsx: 2 base lines, plus 3 lines per
project when the `projects` prop is present, plus 4 lines per work experience
when the `workExperience` prop is present (a JS array is truthy even when
empty, so presence, not non-emptiness, is what the conditionals test). -/
def calculateTotalLines (c : TerminalConfig) : Int :=
  let baseLines : Int := 2
  let projectLines : Int :=
    match c.projects with
    | some ps => (ps.length : Int) * 3
    | none => 0
  let workExperienceLines : Int :=
    match c.workExperience with
    | some ws => (ws.length : Int) * 4
    | none => 0
  baseLines + projectLines + workExperienceLines

/-- `handleClose` of Terminal.tsx: invokes the external `onClose` callback and
sets the shared `isTerminalOpen` flag to false. -/
def handleClose (s : TerminalState) : TerminalState :=
  { s with onCloseCalled := true, isTerminalOpen := false }

/-- `handleMinimize` of Terminal.tsx: toggles the local minimized flag. -/
def handleMinimize (s : TerminalState) : TerminalState :=
  { s with isMinimized := !s.isMinimized }

/-- `handleMaximize` of Terminal.tsx: toggles the local maximized flag. -/
def handleMaximize (s : TerminalState) : TerminalState :=
  { s with isMaximized := !s.isMaximized }

/-- The fixed pixel dimensions (width, height) the render applies for a given
maximized flag: `w-[862px] h-[700px]` when maximized, else
`w-[600px] h-[400px]`. -/
def windowDimensions (isMaximized : Bool) : Int × Int :=
  if isMaximized then (862, 700) else (600, 400)

/-- `scrollToCursor` of Terminal.tsx, as a function of the cursor row it reads
and of the current scroll offset, returning the new scroll offset. The line
height is the constant 24 of the source. -/
def scrollToCursor (c : TerminalConfig) (cursorRow : Int) (scrollTop : Int) : Int :=
  let lineHeight : Int := 24
  let cursorY : Int := cursorRow * lineHeight
  let viewportHeight : Int := c.viewportHeight
  if cursorY < scrollTop then
    cursorY
  else if cursorY > scrollTop + viewportHeight - lineHeight then
    cursorY - viewportHeight + lineHeight
  else
    scrollTop

/-- `handleKeyDown` of Terminal.tsx, as one state transition per key event.

The React state setters called inside the handler (`setCursorPosition`,
`setSelectedLine`, `setLastKeyPressed`) do not change the values the current
closure captured, so the trailing `scrollToCursor()` call still reads the
cursor position from before this event: its row argument here is `s.y`, not
the updated row. -/
def handleKeyDown (c : TerminalConfig) (s : TerminalState) (eventKey : String) :
    TerminalState :=
  let key := keyToLower eventKey
  let totalLines := calculateTotalLines c
  if key = "escape" then
    handleClose s
  else if s.lastKeyPressed = some "y" ∧ key = "y" then
    { s with selectedLine := some s.y, lastKeyPressed := none }
  else
    let newY : Int :=
      if key = "arrowup" ∨ key = "k" then max 0 (s.y - 1)
      else if key = "arrowdown" ∨ key = "j" then min (totalLines - 1) (s.y + 1)
      else s.y
    let newX : Int :=
      if key = "arrowleft" ∨ key = "h" then max 0 (s.x - 1)
      else if key = "arrowright" ∨ key = "l" then s.x + 1
      else s.x
    { s with
      lastKeyPressed := some key
      x := newX
      y := newY
      selectedLine := none
      scrollTop := scrollToCursor c s.y s.scrollTop }

/-- One key event as delivered by the system. Modelled from the spec: the
page hosting the component (not part of these sources) unmounts it when the
shared open flag goes false, and the unmount effect removes the window
keydown listener, so once `isTerminalOpen` is false no further key event
reaches `handleKeyDown`. -/
def step (c : TerminalConfig) (s : TerminalState) (eventKey : String) :
    TerminalState :=
  if s.isTerminalOpen then handleKeyDown c s eventKey else s

/-- The value the `TerminalContext` provider supplies: the flag plus its
setter. The setter (a React state dispatch of a new Bool) is modelled as the
function from the dispatched value to the resulting stored flag. -/
structure TerminalContextType where
  isTerminalOpen : Bool
  setIsTerminalOpen : Bool → Bool

/-- `useTerminal` of TerminalContext.tsx: reads the nearest provider value
(`none` models the `undefined` default of `createContext` seen outside any
provider) and throws a descriptive `Error` when there is none. -/
def useTerminal (context : Option TerminalContextType) :
    Except String TerminalContextType :=
  match context with
  | none => Except.error "useTerminal must be used within a TerminalProvider"
  | some ctx => Except.ok ctx

/-- A concrete project record, for evaluating the definitions. -/
def sampleProject : Project :=
  { title := "site", description := "personal website", repoUrl := "repo", technologies := "ts" }

/-- A concrete work-experience record, for evaluating the definitions. -/
def sampleWork : WorkExperience :=
  { title := "dev", company := "acme", duration := "2024", description := "work",
    technologies := none, link := "link" }

/-- Config with neither content prop supplied. -/
def cNone : TerminalConfig := { projects := none, workExperience := none, viewportHeight := 368 }

/-- Config with one project and no work experience; a 48 px viewport shows two 24 px lines. -/
def cProj : TerminalConfig :=
  { projects := some [sampleProject], workExperience := none, viewportHeight := 48 }

/-- Config with both content props supplied at once. -/
def cBoth : TerminalConfig :=
  { projects := some [sampleProject], workExperience := some [sampleWork], viewportHeight := 368 }

/-- The state right after mount: window open, nothing pressed, cursor at the origin. -/
def sInit : TerminalState :=
  { isTerminalOpen := true, onCloseCalled := false, isMaximized := false, isMinimized := false,
    x := 0, y := 0, selectedLine := none, lastKeyPressed := none, scrollTop := 0 }

/-- A state with a line currently selected. -/
def sSel : TerminalState := { sInit with y := 1, selectedLine := some 1 }

/-- A state with the chord armed: the last key pressed was y. -/
def sArmed : TerminalState := { sInit with y := 1, lastKeyPressed := some "y" }

/-- A state on row 1 with the viewport scrolled to the top. -/
def sScroll : TerminalState := { sInit with y := 1 }

theorem two_le_calculateTotalLines (c : TerminalConfig) : 2 ≤ calculateTotalLines c := by
  unfold calculateTotalLines
  cases c.projects <;> cases c.workExperience
  all_goals simp
  all_goals omega

theorem handleKeyDown_y_char (c : TerminalConfig) (s : TerminalState) (k : String) :
    (handleKeyDown c s k).y =
      if keyToLower k = "escape" then s.y
      else if s.lastKeyPressed = some "y" ∧ keyToLower k = "y" then s.y
      else if keyToLower k = "arrowup" ∨ keyToLower k = "k" then max 0 (s.y - 1)
      else if keyToLower k = "arrowdown" ∨ keyToLower k = "j" then
        min (calculateTotalLines c - 1) (s.y + 1)
      else s.y := by
  by_cases h1 : keyToLower k = "escape" <;>
    by_cases h2 : s.lastKeyPressed = some "y" ∧ keyToLower k = "y" <;>
      simp [handleKeyDown, handleClose, h1, h2]

theorem handleKeyDown_x_char (c : TerminalConfig) (s : TerminalState) (k : String) :
    (handleKeyDown c s k).x =
      if keyToLower k = "escape" then s.x
      else if s.lastKeyPressed = some "y" ∧ keyToLower k = "y" then s.x
      else if keyToLower k = "arrowleft" ∨ keyToLower k = "h" then max 0 (s.x - 1)
      else if keyToLower k = "arrowright" ∨ keyToLower k = "l" then s.x + 1
      else s.x := by
  by_cases h1 : keyToLower k = "escape" <;>
    by_cases h2 : s.lastKeyPressed = some "y" ∧ keyToLower k = "y" <;>
      simp [handleKeyDown, handleClose, h1, h2]

theorem handleKeyDown_row_in_range (c : TerminalConfig) (s : TerminalState) (k : String)
    (h0 : 0 ≤ s.y) (h1 : s.y ≤ calculateTotalLines c - 1) :
    0 ≤ (handleKeyDown c s k).y ∧ (handleKeyDown c s k).y ≤ calculateTotalLines c - 1 := by
  have h2 := two_le_calculateTotalLines c
  rw [handleKeyDown_y_char]
  repeat' split
  all_goals omega

theorem handleKeyDown_col_nonneg (c : TerminalConfig) (s : TerminalState) (k : String)
    (h0 : 0 ≤ s.x) : 0 ≤ (handleKeyDown c s k).x := by
  rw [handleKeyDown_x_char]
  repeat' split
  all_goals omega

theorem handleKeyDown_default_fields (c : TerminalConfig) (s : TerminalState) (k : String)
    (h1 : keyToLower k ≠ "escape")
    (h2 : ¬ (s.lastKeyPressed = some "y" ∧ keyToLower k = "y")) :
    (handleKeyDown c s k).selectedLine = none ∧
    (handleKeyDown c s k).lastKeyPressed = some (keyToLower k) ∧
    (handleKeyDown c s k).isTerminalOpen = s.isTerminalOpen := by
  simp [handleKeyDown, h1, h2]

theorem handleKeyDown_escape_eq (c : TerminalConfig) (s : TerminalState) (k : String)
    (h : keyToLower k = "escape") :
    handleKeyDown c s k = { s with isTerminalOpen := false, onCloseCalled := true } := by
  simp [handleKeyDown, h, handleClose]

theorem handleKeyDown_l_x (c : TerminalConfig) (s : TerminalState) :
    (handleKeyDown c s "l").x = s.x + 1 := by
  simp [handleKeyDown, keyToLower, Char.toLower]

theorem foldl_replicate_l_x (c : TerminalConfig) (n : Nat) (s : TerminalState) :
    ((List.replicate n "l").foldl (handleKeyDown c) s).x = s.x + n := by
  induction n generalizing s with
  | zero => simp
  | succ m ih =>
      rw [List.replicate_succ, List.foldl_cons, ih, handleKeyDown_l_x]
      omega

theorem foldl_col_nonneg (c : TerminalConfig) (keys : List String) (s : TerminalState)
    (h0 : 0 ≤ s.x) : 0 ≤ (keys.foldl (handleKeyDown c) s).x := by
  induction keys generalizing s with
  | nil => simpa using h0
  | cons k ks ih => exact ih _ (handleKeyDown_col_nonneg c s k h0)

theorem handleKeyDown_isMaximized (c : TerminalConfig) (s : TerminalState) (k : String) :
    (handleKeyDown c s k).isMaximized = s.isMaximized := by
  by_cases h1 : keyToLower k = "escape" <;>
    by_cases h2 : s.lastKeyPressed = some "y" ∧ keyToLower k = "y" <;>
      simp [handleKeyDown, handleClose, h1, h2]

/-- C1: in the key handler, a y pressed while the last recorded key is y sets
the selected line to the current cursor row, clears the last key, and changes
nothing else (cursor and scroll untouched); and starting unarmed, pressing y,
then any key other than y, then y again leaves no line selected, so an
intervening key cancels the chord. -/
theorem chord_double_y_selects_and_other_key_cancels
    (c : TerminalConfig) (s : TerminalState) (k : String)
    (hopen : s.isTerminalOpen = true) :
    (s.lastKeyPressed = some "y" →
      step c s "y" = { s with selectedLine := some s.y, lastKeyPressed := none }) ∧
    (s.lastKeyPressed ≠ some "y" → keyToLower k ≠ "y" →
      (step c (step c (step c s "y") k) "y").selectedLine = none) := by
  constructor
  · intro hy
    simp [step, hopen, handleKeyDown, keyToLower, Char.toLower, hy]
  · intro hy hk
    have hstep1 : step c s "y" = handleKeyDown c s "y" := by simp [step, hopen]
    obtain ⟨hsel1, hlast1, hopen1⟩ :=
      handleKeyDown_default_fields c s "y" (by decide) (fun h => hy h.1)
    rw [hstep1]
    have hopen1' : (handleKeyDown c s "y").isTerminalOpen = true := by rw [hopen1, hopen]
    by_cases hesc : keyToLower k = "escape"
    · have hstep2 : step c (handleKeyDown c s "y") k
          = { handleKeyDown c s "y" with isTerminalOpen := false, onCloseCalled := true } := by
        simp [step, hopen1', handleKeyDown_escape_eq c _ k hesc]
      rw [hstep2]
      have hstep3 : step c
          { handleKeyDown c s "y" with isTerminalOpen := false, onCloseCalled := true } "y"
          = { handleKeyDown c s "y" with isTerminalOpen := false, onCloseCalled := true } := by
        simp [step]
      rw [hstep3]
      exact hsel1
    · have hstep2 : step c (handleKeyDown c s "y") k
          = handleKeyDown c (handleKeyDown c s "y") k := by
        simp [step, hopen1']
      rw [hstep2]
      obtain ⟨hsel2, hlast2, hopen2⟩ :=
        handleKeyDown_default_fields c (handleKeyDown c s "y") k hesc (fun h => hk h.2)
      have hopen2' : (handleKeyDown c (handleKeyDown c s "y") k).isTerminalOpen = true := by
        rw [hopen2, hopen1, hopen]
      have hstep3 : step c (handleKeyDown c (handleKeyDown c s "y") k) "y"
          = handleKeyDown c (handleKeyDown c (handleKeyDown c s "y") k) "y" := by
        simp [step, hopen2']
      rw [hstep3]
      refine (handleKeyDown_default_fields c _ "y" (by decide) ?_).1
      intro h
      rw [hlast2] at h
      exact hk (Option.some.inj h.1)

/-- Witness for C1 at concrete inputs: a second y while armed selects row 1,
and the sequence y, x, y from the unarmed initial state selects nothing. -/
theorem chord_double_y_selects_and_other_key_cancels_witness :
    step cNone sArmed "y" = { sArmed with selectedLine := some sArmed.y, lastKeyPressed := none } ∧
    (step cNone (step cNone (step cNone sInit "y") "x") "y").selectedLine = none :=
  ⟨(chord_double_y_selects_and_other_key_cancels cNone sArmed "x" (by decide)).1 (by decide),
   (chord_double_y_selects_and_other_key_cancels cNone sInit "x" (by decide)).2
     (by decide) (by decide)⟩

/-- C2: from any row in the closed interval from 0 to totalLines minus 1, any
sequence of key events processed by the handler keeps the row in that
interval; in particular repeated j or arrowdown presses never push it past
totalLines minus 1, and repeated k or arrowup presses never push it below 0. -/
theorem cursor_row_stays_in_range (c : TerminalConfig) (s : TerminalState)
    (keys : List String) (h0 : 0 ≤ s.y) (h1 : s.y ≤ calculateTotalLines c - 1) :
    0 ≤ (keys.foldl (handleKeyDown c) s).y ∧
      (keys.foldl (handleKeyDown c) s).y ≤ calculateTotalLines c - 1 := by
  induction keys generalizing s with
  | nil => exact ⟨h0, h1⟩
  | cons k ks ih =>
      have h := handleKeyDown_row_in_range c s k h0 h1
      exact ih (handleKeyDown c s k) h.1 h.2

/-- Witness for C2: with no content, three j presses from row 0 end at a row
still inside the interval from 0 to totalLines minus 1. -/
theorem cursor_row_stays_in_range_witness :
    0 ≤ ((["j", "j", "j"].foldl (handleKeyDown cNone) sInit).y) ∧
      (["j", "j", "j"].foldl (handleKeyDown cNone) sInit).y ≤ calculateTotalLines cNone - 1 :=
  cursor_row_stays_in_range cNone sInit ["j", "j", "j"] (by decide) (by decide)

/-- C3 counterexample: with one project and one work experience both supplied,
the code counts 2 plus 3 plus 4 = 9 lines, not 2 plus 3 times the number of
projects: both lists contribute, so the two content kinds are not mutually
exclusive in the line count. -/
theorem total_lines_not_exclusive_counterexample :
    cBoth.projects = some [sampleProject] ∧
    ([sampleProject].length : Int) = 1 ∧
    calculateTotalLines cBoth ≠ 2 + 3 * 1 := by decide

/-- C3 amended: totalLines is always 2 plus 3 per project plus 4 per work
experience, with an absent list contributing 0; only when at most one list is
supplied does it reduce to the exclusive formulas of the claim. -/
theorem total_lines_formula (c : TerminalConfig) :
    calculateTotalLines c =
      2 + (match c.projects with | some ps => (ps.length : Int) * 3 | none => 0)
        + (match c.workExperience with | some ws => (ws.length : Int) * 4 | none => 0) ∧
    (∀ ps, c.projects = some ps → c.workExperience = none →
      calculateTotalLines c = 2 + (ps.length : Int) * 3) ∧
    (∀ ws, c.projects = none → c.workExperience = some ws →
      calculateTotalLines c = 2 + (ws.length : Int) * 4) := by
  refine ⟨rfl, ?_, ?_⟩ <;> · intro xs h1 h2; simp [calculateTotalLines, h1, h2]

/-- Witness for C3 amended, at a config with one project and no work
experience. -/
theorem total_lines_formula_witness :
    calculateTotalLines cProj = 2 + (([sampleProject].length : Nat) : Int) * 3 :=
  (total_lines_formula cProj).2.1 [sampleProject] rfl rfl

/-- C4: arrowright and l increase the column by one with no upper clamp, so n
presses of l add n; arrowleft and h set the column to the maximum of 0 and
column minus 1; and from a nonnegative column no key sequence makes the
column negative. -/
theorem column_unbounded_right_clamped_left (c : TerminalConfig) (s : TerminalState)
    (keys : List String) (n : Nat) (h0 : 0 ≤ s.x) :
    (handleKeyDown c s "arrowright").x = s.x + 1 ∧
    (handleKeyDown c s "l").x = s.x + 1 ∧
    (handleKeyDown c s "arrowleft").x = max 0 (s.x - 1) ∧
    (handleKeyDown c s "h").x = max 0 (s.x - 1) ∧
    ((List.replicate n "l").foldl (handleKeyDown c) s).x = s.x + n ∧
    0 ≤ (keys.foldl (handleKeyDown c) s).x := by
  refine ⟨?_, ?_, ?_, ?_, foldl_replicate_l_x c n s, foldl_col_nonneg c keys s h0⟩ <;>
    simp [handleKeyDown, keyToLower, Char.toLower]

/-- Witness for C4 at the initial state, five l presses and the sequence
l, h, h. -/
theorem column_unbounded_right_clamped_left_witness :
    (handleKeyDown cNone sInit "arrowright").x = sInit.x + 1 ∧
    (handleKeyDown cNone sInit "l").x = sInit.x + 1 ∧
    (handleKeyDown cNone sInit "arrowleft").x = max 0 (sInit.x - 1) ∧
    (handleKeyDown cNone sInit "h").x = max 0 (sInit.x - 1) ∧
    ((List.replicate 5 "l").foldl (handleKeyDown cNone) sInit).x = sInit.x + 5 ∧
    0 ≤ ((["l", "h", "h"].foldl (handleKeyDown cNone) sInit).x) :=
  column_unbounded_right_clamped_left cNone sInit ["l", "h", "h"] 5 (by decide)

/-- C5: any key whose lowercase form is not escape and is not the second y of
an armed chord leaves the selected line cleared to none after the event,
unrecognized keys included. -/
theorem any_other_key_clears_selected_line (c : TerminalConfig) (s : TerminalState)
    (k : String) (h1 : keyToLower k ≠ "escape")
    (h2 : ¬ (s.lastKeyPressed = some "y" ∧ keyToLower k = "y")) :
    (handleKeyDown c s k).selectedLine = none := by
  simp [handleKeyDown, h1, h2]

/-- Witness for C5: a j pressed while line 1 is selected removes the
highlight. -/
theorem any_other_key_clears_selected_line_witness :
    (handleKeyDown cNone sSel "j").selectedLine = none :=
  any_other_key_clears_selected_line cNone sSel "j" (by decide) (by decide)

/-- C6: any key lowercasing to escape invokes the close callback and sets the
shared open flag to false, and changes nothing else: cursor position,
selected line, last key pressed, and scroll offset are all left as they
were. -/
theorem escape_closes_and_changes_nothing_else (c : TerminalConfig) (s : TerminalState)
    (k : String) (h : keyToLower k = "escape") :
    handleKeyDown c s k = { s with isTerminalOpen := false, onCloseCalled := true } := by
  simp [handleKeyDown, h, handleClose]

/-- Witness for C6 at the raw browser key name Escape, from a state with a
selection and nonzero cursor. -/
theorem escape_closes_and_changes_nothing_else_witness :
    handleKeyDown cNone sSel "Escape" =
      { sSel with isTerminalOpen := false, onCloseCalled := true } :=
  escape_closes_and_changes_nothing_else cNone sSel "Escape" (by decide)

/-- C7, failing input: in a two-line viewport scrolled to the top with the
cursor on row 1, a j press moves the cursor to row 2 but leaves scrollTop at
0, because the handler computes the scroll from the stale pre-event row 1;
scroll-into-view at the new row 2 would have returned 24, and at the old row
1 it returns 0, which is what the code stores. -/
theorem scroll_into_view_uses_stale_row :
    (handleKeyDown cProj sScroll "j").y = 2 ∧
    (handleKeyDown cProj sScroll "j").scrollTop = 0 ∧
    scrollToCursor cProj 2 sScroll.scrollTop = 24 ∧
    scrollToCursor cProj sScroll.y sScroll.scrollTop = 0 := by decide

/-- C8 counterexample: pressing f from the initial state does not toggle the
maximized flag, because the key handler has no case for f. -/
theorem f_key_does_not_toggle_counterexample :
    ¬ ((handleKeyDown cNone sInit "f").isMaximized = !sInit.isMaximized) := by decide

/-- C8 amended: clicking the maximize button toggles the maximized flag and
switches the fixed pixel dimensions between the small and large presets, but
the f and F keys do not: the key handler leaves the maximized flag
unchanged. -/
theorem maximize_button_toggles_but_f_key_does_not (c : TerminalConfig)
    (s : TerminalState) (k : String) (_hk : keyToLower k = "f") :
    (handleMaximize s).isMaximized = !s.isMaximized ∧
    windowDimensions (handleMaximize s).isMaximized =
      (if s.isMaximized then (600, 400) else (862, 700)) ∧
    (handleKeyDown c s k).isMaximized = s.isMaximized := by
  refine ⟨rfl, ?_, handleKeyDown_isMaximized c s k⟩
  cases h : s.isMaximized <;> simp [handleMaximize, windowDimensions, h]

/-- Witness for C8 amended at the raw key F and the initial state. -/
theorem maximize_button_toggles_but_f_key_does_not_witness :
    (handleMaximize sInit).isMaximized = !sInit.isMaximized ∧
    windowDimensions (handleMaximize sInit).isMaximized =
      (if sInit.isMaximized then (600, 400) else (862, 700)) ∧
    (handleKeyDown cNone sInit "F").isMaximized = sInit.isMaximized :=
  maximize_button_toggles_but_f_key_does_not cNone sInit "F" (by decide)

/-- C9: the shared accessor returns a descriptive error naming the misuse when
read outside a provider, and returns the provider value unchanged, flag and
setter included, when read inside one. -/
theorem use_terminal_fail_fast :
    useTerminal none = Except.error "useTerminal must be used within a TerminalProvider" ∧
    ∀ ctx : TerminalContextType, useTerminal (some ctx) = Except.ok ctx :=
  ⟨rfl, fun _ => rfl⟩

/-- C10: the vertical keys leave the column unchanged, the horizontal keys
leave the row unchanged, and a key matching no navigation case leaves both
unchanged. -/
theorem navigation_axis_independent (c : TerminalConfig) (s : TerminalState) (k : String)
    (h : keyToLower k ∉
      (["arrowup", "k", "arrowdown", "j", "arrowleft", "h", "arrowright", "l"] :
        List String)) :
    (handleKeyDown c s "arrowup").x = s.x ∧ (handleKeyDown c s "k").x = s.x ∧
    (handleKeyDown c s "arrowdown").x = s.x ∧ (handleKeyDown c s "j").x = s.x ∧
    (handleKeyDown c s "arrowleft").y = s.y ∧ (handleKeyDown c s "h").y = s.y ∧
    (handleKeyDown c s "arrowright").y = s.y ∧ (handleKeyDown c s "l").y = s.y ∧
    (handleKeyDown c s k).x = s.x ∧ (handleKeyDown c s k).y = s.y := by
  simp only [List.mem_cons, List.not_mem_nil, or_false, not_or] at h
  obtain ⟨hu, hk2, hd, hj, hl2, hh, hr, hl⟩ := h
  refine ⟨?_, ?_, ?_, ?_, ?_, ?_, ?_, ?_, ?_, ?_⟩
  · simp [handleKeyDown, keyToLower, Char.toLower]
  · simp [handleKeyDown, keyToLower, Char.toLower]
  · simp [handleKeyDown, keyToLower, Char.toLower]
  · simp [handleKeyDown, keyToLower, Char.toLower]
  · simp [handleKeyDown, keyToLower, Char.toLower]
  · simp [handleKeyDown, keyToLower, Char.toLower]
  · simp [handleKeyDown, keyToLower, Char.toLower]
  · simp [handleKeyDown, keyToLower, Char.toLower]
  · rw [handleKeyDown_x_char]
    simp [hl2, hh, hr, hl]
  · rw [handleKeyDown_y_char]
    simp [hu, hk2, hd, hj]

/-- Witness for C10 at the unrecognized key x. -/
theorem navigation_axis_independent_witness :
    (handleKeyDown cNone sInit "arrowup").x = sInit.x ∧
    (handleKeyDown cNone sInit "k").x = sInit.x ∧
    (handleKeyDown cNone sInit "arrowdown").x = sInit.x ∧
    (handleKeyDown cNone sInit "j").x = sInit.x ∧
    (handleKeyDown cNone sInit "arrowleft").y = sInit.y ∧
    (handleKeyDown cNone sInit "h").y = sInit.y ∧
    (handleKeyDown cNone sInit "arrowright").y = sInit.y ∧
    (handleKeyDown cNone sInit "l").y = sInit.y ∧
    (handleKeyDown cNone sInit "x").x = sInit.x ∧
    (handleKeyDown cNone sInit "x").y = sInit.y :=
  navigation_axis_independent cNone sInit "x" (by decide)
